import Mathlib

/-!
Verification of the GitHub issue notifier core.

Shallow embedding of the polling / dedup / notify pipeline:
* `Issue` mirrors the Go struct `issue.Issue` (strings modelled as lists of
  code units, the pull-request field as an `Option`).
* `checkForNewIssues` mirrors the dispatch loop of
  `NotificationService.checkForNewIssues` (main.go) / `Service.checkForNewIssues`
  (the package variants), with the per-issue sink outcome supplied as a `Bool`
  oracle and a trace of sink invocations recorded together with the value of
  `lastCheckID` at the moment each issue was filtered.
* `fetchLoop` mirrors the bounded retry loop of
  `NotificationService.fetchLatestIssues`, with each HTTP attempt outcome
  supplied by an oracle and the inter-attempt sleeps counted.
* `sendNotificationTiming` and `sendNotificationRun` mirror the
  flood-prevention timing of `NotificationService.sendNotification` over an
  explicit integer clock (nanoseconds, as Go durations are);
  `sendNotificationRun` also covers the darwin early return that skips the
  `lastNotifyTime` write.
* `filterPullRequests` mirrors the post-decode filter of
  `Repository.FetchLatestIssues` (internal/repository/repo.go).
-/

/-- Mirrors `issue.Issue` / main.go `Issue`: integer id and number, title and
URL as byte strings, and the optional `pull_request` field (its URL) whose
presence flags a pull-request variant. -/
structure Issue where
  id : Int
  number : Int
  title : List Char
  htmlURL : List Char
  state : List Char
  pullRequest : Option (List Char)
deriving Repr, DecidableEq

/-- `maxNotificationLength` from config.go / main.go. -/
def maxNotificationLength : Nat := 100

/-- `maxRetries` from config.go / main.go. -/
def maxRetries : Nat := 3

/-- `retryDelay` (5 s) in nanoseconds, as Go represents durations. -/
def retryDelay : Int := 5 * 1000000000

/-- `notifyDelay` (500 ms) in nanoseconds, as Go represents durations. -/
def notifyDelay : Int := 500 * 1000000

/-- `lastCheckID: 0` in `NewNotificationService` / `NewService`. -/
def initialLastCheckID : Int := 0

/-- The dedup test `issue.ID > s.lastCheckID` (main.go line 220). -/
def isNew (lastCheckID : Int) (i : Issue) : Bool :=
  i.id > lastCheckID

/-- The dispatch loop of `checkForNewIssues` (main.go lines 219-231).
Input: the current `lastCheckID` and the fetched batch, each issue paired with
the outcome of its `sendNotification` call (`true` = sink returned no error).
Output: the final `lastCheckID`, and a trace with one entry per sink
invocation: the value of `lastCheckID` against which that issue was filtered,
paired with the issue handed to the sink. The redundant inner
`if issue.ID > s.lastCheckID` guard of the source is kept as written. -/
def checkForNewIssues (lastCheckID : Int) :
    List (Issue × Bool) → Int × List (Int × Issue)
  | [] => (lastCheckID, [])
  | (i, ok) :: rest =>
    if isNew lastCheckID i then
      if ok then
        let newLast := if i.id > lastCheckID then i.id else lastCheckID
        let r := checkForNewIssues newLast rest
        (r.1, (lastCheckID, i) :: r.2)
      else
        let r := checkForNewIssues lastCheckID rest
        (r.1, (lastCheckID, i) :: r.2)
    else
      checkForNewIssues lastCheckID rest

/-- Final `lastCheckID` after one poll cycle. -/
def runCycle (lastCheckID : Int) (batch : List (Issue × Bool)) : Int :=
  (checkForNewIssues lastCheckID batch).1

/-- The successive values of `lastCheckID` across a sequence of poll cycles,
starting from the given value (the service starts it at `initialLastCheckID`). -/
def cycleStates (lastCheckID : Int) : List (List (Issue × Bool)) → List Int
  | [] => [lastCheckID]
  | b :: bs => lastCheckID :: cycleStates (runCycle lastCheckID b) bs

/-- Within one batch, `lastCheckID` never decreases. -/
theorem runCycle_mono (lastCheckID : Int) (batch : List (Issue × Bool)) :
    lastCheckID ≤ runCycle lastCheckID batch := by
  induction batch generalizing lastCheckID with
  | nil => simp [runCycle, checkForNewIssues]
  | cons p rest ih =>
    obtain ⟨i, ok⟩ := p
    simp only [runCycle, checkForNewIssues] at *
    by_cases hnew : isNew lastCheckID i
    · by_cases hok : ok
      · simp only [hnew, hok, if_true]
        have hgt : lastCheckID < i.id := by
          simpa [isNew, decide_eq_true_eq] using hnew
        have := ih (if i.id > lastCheckID then i.id else lastCheckID)
        simp only [hgt, if_true] at this ⊢
        omega
      · simp only [hnew, hok, if_true, if_false]
        exact ih lastCheckID
    · simp only [hnew, if_false]
      exact ih lastCheckID

/-- Every sink invocation in the trace was filtered against a `lastCheckID`
value at least the batch-start value, and passed the strict test. -/
theorem checkForNewIssues_trace_sound (lastCheckID : Int)
    (batch : List (Issue × Bool)) :
    ∀ p ∈ (checkForNewIssues lastCheckID batch).2,
      p.2.id > p.1 ∧ lastCheckID ≤ p.1 := by
  induction batch generalizing lastCheckID with
  | nil => simp [checkForNewIssues]
  | cons q rest ih =>
    obtain ⟨i, ok⟩ := q
    intro p hp
    simp only [checkForNewIssues] at hp
    by_cases hnew : isNew lastCheckID i
    · have hgt : lastCheckID < i.id := by
        simpa [isNew, decide_eq_true_eq] using hnew
      by_cases hok : ok
      · simp only [hnew, hok, if_true, List.mem_cons] at hp
        rcases hp with rfl | hp
        · exact ⟨hgt, le_refl _⟩
        · have h2 := ih (if i.id > lastCheckID then i.id else lastCheckID) p hp
          refine ⟨h2.1, le_trans ?_ h2.2⟩
          split <;> omega
      · simp only [hnew, hok, if_true, if_false, Bool.false_eq_true,
          List.mem_cons] at hp
        rcases hp with heq | hp
        · subst heq; exact ⟨hgt, le_refl _⟩
        · exact ih lastCheckID p hp
    · simp only [hnew, if_false] at hp
      exact ih lastCheckID p hp

/-- An issue record with the given id (and number), used as concrete input. -/
def mkIssue (n : Int) : Issue :=
  { id := n, number := n, title := [], htmlURL := [], state := [],
    pullRequest := none }

/-- Claim C1: in every poll cycle, an issue whose ID is at most the value of
`lastCheckID` at the time it is filtered is never passed to the notification
sink: every sink invocation recorded in the trace carries a filter-time
`lastCheckID` below the issue ID, and that filter-time value is at least the
value `lastCheckID` held when the batch arrived. -/
theorem c1_at_most_once (lastCheckID : Int) (batch : List (Issue × Bool))
    (p : Int × Issue) (hp : p ∈ (checkForNewIssues lastCheckID batch).2) :
    p.2.id > p.1 ∧ lastCheckID ≤ p.1 :=
  checkForNewIssues_trace_sound lastCheckID batch p hp

/-- Witness for C1 at a concrete batch: issue 5 is dispatched against
`lastCheckID = 0` and the theorem applies. -/
theorem c1_at_most_once_witness :
    ((0 : Int), mkIssue 5) ∈ (checkForNewIssues 0 [(mkIssue 5, true)]).2 ∧
      (mkIssue 5).id > 0 ∧ (0 : Int) ≤ 0 :=
  ⟨by decide, c1_at_most_once 0 [(mkIssue 5, true)] (0, mkIssue 5) (by decide)⟩

/-- One poll cycle over the empty batch leaves the state unchanged. -/
theorem runCycle_nil (lastCheckID : Int) : runCycle lastCheckID [] = lastCheckID :=
  rfl

/-- A successfully dispatched head issue advances the state to the max. -/
theorem runCycle_cons_true (lastCheckID : Int) (i : Issue)
    (rest : List (Issue × Bool)) :
    runCycle lastCheckID ((i, true) :: rest)
      = runCycle (max lastCheckID i.id) rest := by
  by_cases h : i.id > lastCheckID
  · have hm : max lastCheckID i.id = i.id := max_eq_right (le_of_lt h)
    simp [runCycle, checkForNewIssues, isNew, h, hm]
  · have hm : max lastCheckID i.id = lastCheckID := max_eq_left (by omega)
    simp [runCycle, checkForNewIssues, isNew, h, hm]

/-- Claim C2: a successful dispatch updates `lastCheckID` to
`max lastCheckID issue.ID` (so it is never overwritten with a smaller value),
and the batch `[50, 70, 60]` with all dispatches succeeding, started anywhere
below 50, ends with `lastCheckID = 70`, not 60. -/
theorem c2_max_update :
    (∀ (lastCheckID : Int) (i : Issue),
      runCycle lastCheckID [(i, true)] = max lastCheckID i.id) ∧
    (∀ lastCheckID : Int, lastCheckID < 50 →
      runCycle lastCheckID
        [(mkIssue 50, true), (mkIssue 70, true), (mkIssue 60, true)] = 70) := by
  constructor
  · intro lastCheckID i
    rw [runCycle_cons_true, runCycle_nil]
  · intro lastCheckID h
    rw [runCycle_cons_true, runCycle_cons_true, runCycle_cons_true, runCycle_nil]
    simp only [mkIssue]
    omega

/-- Witness for C2: starting from the initial value 0, the `[50, 70, 60]`
batch ends with `lastCheckID = 70`. -/
theorem c2_max_update_witness :
    (0 : Int) < 50 ∧
    runCycle 0 [(mkIssue 50, true), (mkIssue 70, true), (mkIssue 60, true)]
      = 70 :=
  ⟨by decide, c2_max_update.2 0 (by decide)⟩

/-- Claim C3: the service starts `lastCheckID` at 0, and across every sequence
of poll cycles (arbitrary batches and dispatch outcomes) the successive values
of `lastCheckID` form a non-decreasing chain starting at 0. -/
theorem c3_monotonic (cycles : List (List (Issue × Bool))) :
    initialLastCheckID = 0 ∧
    (cycleStates initialLastCheckID cycles).head? = some 0 ∧
    List.Chain' (· ≤ ·) (cycleStates initialLastCheckID cycles) := by
  refine ⟨rfl, ?_, ?_⟩
  · cases cycles <;> simp [cycleStates, initialLastCheckID]
  · have chain : ∀ (start : Int) (cs : List (List (Issue × Bool))),
        List.Chain' (· ≤ ·) (cycleStates start cs) := by
      intro start cs
      induction cs generalizing start with
      | nil => simp [cycleStates]
      | cons b bs ih =>
        simp only [cycleStates]
        rw [List.chain'_cons']
        refine ⟨?_, ih (runCycle start b)⟩
        intro y hy
        have hhead : (cycleStates (runCycle start b) bs).head?
            = some (runCycle start b) := by
          cases bs <;> simp [cycleStates]
        rw [hhead] at hy
        cases hy
        exact runCycle_mono start b
    exact chain initialLastCheckID cycles

/-- Claim C10: when the sink fails on a new issue, the issue is still handed
to the sink but `lastCheckID` does not move: in any batch the failing issue
contributes a trace entry and no state change, so immediately afterwards the
issue is still classified as new and a later cycle dispatches it again. -/
theorem c10_failed_dispatch_keeps_state (lastCheckID : Int) (i : Issue)
    (rest : List (Issue × Bool)) (h : isNew lastCheckID i = true) :
    (checkForNewIssues lastCheckID ((i, false) :: rest)).1
        = (checkForNewIssues lastCheckID rest).1 ∧
    (checkForNewIssues lastCheckID ((i, false) :: rest)).2
        = (lastCheckID, i) :: (checkForNewIssues lastCheckID rest).2 ∧
    runCycle lastCheckID [(i, false)] = lastCheckID ∧
    isNew (runCycle lastCheckID [(i, false)]) i = true ∧
    (checkForNewIssues (runCycle lastCheckID [(i, false)]) [(i, true)]).2
        = [(lastCheckID, i)] := by
  refine ⟨?_, ?_, ?_, ?_, ?_⟩ <;>
    simp [checkForNewIssues, runCycle, h]

/-- Witness for C10: issue 5 against `lastCheckID = 0` with a failing sink. -/
theorem c10_failed_dispatch_keeps_state_witness :
    isNew 0 (mkIssue 5) = true ∧
      runCycle 0 [(mkIssue 5, false)] = 0 ∧
      isNew (runCycle 0 [(mkIssue 5, false)]) (mkIssue 5) = true :=
  ⟨by decide,
    (c10_failed_dispatch_keeps_state 0 (mkIssue 5) [] (by decide)).2.2.1,
    (c10_failed_dispatch_keeps_state 0 (mkIssue 5) [] (by decide)).2.2.2.1⟩

/-- Outcome of one HTTP attempt (`s.client.Do(req)` plus the decode step) as
observed by the retry loop of `fetchLatestIssues`: either the transport fails
(no response; abstract cause tag), or a response arrives carrying a status
code and, when the body is read, its decode result (`none` = decode failure). -/
inductive AttemptOutcome where
  | transportError (cause : Nat)
  | response (statusCode : Nat) (body : Option (List Issue))
deriving Repr, DecidableEq

/-- The errors surfaced by `fetchLatestIssues` (main.go lines 135-162):
transport exhaustion carrying the attempt counter and the last cause, the
401 authentication failure, the non-success status surfaced on the last
attempt, and the decode failure. -/
inductive FetchError where
  | transportExhausted (attempts : Nat) (cause : Nat)
  | authFailed
  | apiStatus (statusCode : Nat)
  | decodeError
deriving Repr, DecidableEq

deriving instance DecidableEq for Except

/-- Result of the retry loop together with its observable effects: the number
of `time.Sleep(retryDelay)` calls executed and the number of `client.Do`
attempts performed. -/
structure FetchResult where
  result : Except FetchError (List Issue)
  sleeps : Nat
  attemptsMade : Nat
deriving Repr, DecidableEq

/-- The retry loop of `fetchLatestIssues` (main.go lines 135-162):
`for attempt := 0; attempt <= s.maxRetries; attempt++` with, per iteration,
the transport check, the 401 terminal check, the non-200 retryable check and
the decode step, sleeping `retryDelay` before every re-attempt. The `fuel`
argument is the structural recursion measure; `fetchLatestIssues` supplies
`maxR + 1`, which makes fuel exhaustion coincide exactly with the loop
condition `attempt ≤ maxR` failing (both exits return the untouched
`issues = nil` value, as the Go loop would). -/
def fetchLoop (outcomes : Nat → AttemptOutcome) (maxR : Nat) :
    Nat → Nat → Nat → Nat → FetchResult
  | 0, _attempt, sleeps, made => ⟨.ok [], sleeps, made⟩
  | fuel + 1, attempt, sleeps, made =>
    if attempt ≤ maxR then
      match outcomes attempt with
      | .transportError cause =>
        if attempt = maxR then
          ⟨.error (.transportExhausted attempt cause), sleeps, made + 1⟩
        else fetchLoop outcomes maxR fuel (attempt + 1) (sleeps + 1) (made + 1)
      | .response code body =>
        if code = 401 then ⟨.error .authFailed, sleeps, made + 1⟩
        else if code ≠ 200 then
          if attempt = maxR then ⟨.error (.apiStatus code), sleeps, made + 1⟩
          else fetchLoop outcomes maxR fuel (attempt + 1) (sleeps + 1) (made + 1)
        else
          match body with
          | none => ⟨.error .decodeError, sleeps, made + 1⟩
          | some issues => ⟨.ok issues, sleeps, made + 1⟩
    else ⟨.ok [], sleeps, made⟩

/-- `fetchLatestIssues` retry phase: run the loop from attempt 0 with no
sleeps or attempts recorded yet. -/
def fetchLatestIssues (outcomes : Nat → AttemptOutcome) (maxR : Nat) :
    FetchResult :=
  fetchLoop outcomes maxR (maxR + 1) 0 0 0

/-- Claim C4: terminal failures are never retried. At any live point of the
retry loop, an attempt answered with status 401, or with status 200 and a
body that fails to decode, makes the fetch return that error at once: exactly
one more `client.Do` call happens (zero subsequent attempts) and no
inter-attempt sleep is added. -/
theorem c4_terminal_no_retry (outcomes : Nat → AttemptOutcome)
    (maxR fuel attempt sleeps made : Nat) (h : attempt ≤ maxR) :
    (∀ body, outcomes attempt = .response 401 body →
      fetchLoop outcomes maxR (fuel + 1) attempt sleeps made
        = ⟨.error .authFailed, sleeps, made + 1⟩) ∧
    (outcomes attempt = .response 200 none →
      fetchLoop outcomes maxR (fuel + 1) attempt sleeps made
        = ⟨.error .decodeError, sleeps, made + 1⟩) := by
  constructor
  · intro body hout
    simp [fetchLoop, h, hout]
  · intro hout
    simp [fetchLoop, h, hout]

/-- Witness for C4: with `maxRetries = 3`, a 401 on the first attempt yields
an immediate auth error after one attempt and zero sleeps, and a decode
failure on the first attempt yields an immediate decode error likewise. -/
theorem c4_terminal_no_retry_witness :
    fetchLatestIssues (fun _ => .response 401 none) maxRetries
      = ⟨.error .authFailed, 0, 1⟩ ∧
    fetchLatestIssues (fun _ => .response 200 none) maxRetries
      = ⟨.error .decodeError, 0, 1⟩ :=
  ⟨(c4_terminal_no_retry (fun _ => .response 401 none) maxRetries 3 0 0 0
      (by decide)).1 none rfl,
   (c4_terminal_no_retry (fun _ => .response 200 none) maxRetries 3 0 0 0
      (by decide)).2 rfl⟩

/-- The loop never performs more attempts than it has fuel for. -/
theorem fetchLoop_attempts_le (outcomes : Nat → AttemptOutcome) (maxR : Nat) :
    ∀ fuel attempt sleeps made,
      (fetchLoop outcomes maxR fuel attempt sleeps made).attemptsMade
        ≤ made + fuel := by
  intro fuel
  induction fuel with
  | zero => intro attempt sleeps made; simp [fetchLoop]
  | succ n ih =>
    intro attempt sleeps made
    simp only [fetchLoop]
    by_cases h : attempt ≤ maxR
    · simp only [h, if_true]
      cases hout : outcomes attempt with
      | transportError cause =>
        by_cases h2 : attempt = maxR
        · simp [h2]
        · simp only [h2, if_false]
          have := ih (attempt + 1) (sleeps + 1) (made + 1)
          omega
      | response code body =>
        by_cases hc : code = 401
        · simp [hc]
        · by_cases hc2 : code = 200
          · cases body <;> simp [hc, hc2]
          · by_cases h2 : attempt = maxR
            · simp [hc, hc2, h2]
            · simp only [hc, hc2, h2, if_false, ne_eq, not_false_eq_true,
                if_true]
              have := ih (attempt + 1) (sleeps + 1) (made + 1)
              omega
    · simp [h]

/-- When every attempt is a transport failure, the loop exhausts its retries,
sleeping once per re-attempt, and surfaces the cause seen on the final
(`maxR`-th) attempt. -/
theorem fetchLoop_all_transport (c : Nat → Nat) (maxR : Nat) :
    ∀ fuel attempt sleeps made, attempt ≤ maxR → fuel = maxR + 1 - attempt →
      fetchLoop (fun k => .transportError (c k)) maxR fuel attempt sleeps made
        = ⟨.error (.transportExhausted maxR (c maxR)),
            sleeps + (maxR - attempt), made + (maxR + 1 - attempt)⟩ := by
  intro fuel
  induction fuel with
  | zero => intro attempt sleeps made h hf; omega
  | succ n ih =>
    intro attempt sleeps made h hf
    simp only [fetchLoop]
    rw [if_pos h]
    by_cases h2 : attempt = maxR
    · rw [if_pos h2]
      have e0 : maxR - attempt = 0 := by omega
      have e1 : maxR + 1 - attempt = 1 := by omega
      rw [e0, e1, h2]
      simp
    · rw [if_neg h2]
      rw [ih (attempt + 1) (sleeps + 1) (made + 1) (by omega) (by omega)]
      simp only [FetchResult.mk.injEq]
      refine ⟨?_, ?_, ?_⟩ <;> first | trivial | omega

/-- Claim C5: the retry loop makes at most `maxRetries + 1` attempts; when
every attempt fails at the transport level it returns, after exactly one
`retryDelay` sleep per re-attempt, an error carrying the cause seen on the
last attempt; and with `maxRetries = 3`, transport failures on attempts 1 and
2 followed by a 200 on attempt 3 yield a successful fetch after exactly two
inter-attempt sleeps (total sleep time `2 * retryDelay`); non-success
non-terminal statuses behave the same way, retried with one sleep each and
surfaced after the last attempt. -/
theorem c5_bounded_retry :
    (∀ (outcomes : Nat → AttemptOutcome) (maxR : Nat),
      (fetchLatestIssues outcomes maxR).attemptsMade ≤ maxR + 1) ∧
    (∀ (c : Nat → Nat) (maxR : Nat),
      fetchLatestIssues (fun k => .transportError (c k)) maxR
        = ⟨.error (.transportExhausted maxR (c maxR)), maxR, maxR + 1⟩) ∧
    (fetchLatestIssues
        (fun k => if k < 2 then .transportError k else .response 200 (some []))
        maxRetries = ⟨.ok [], 2, 3⟩) ∧
    ((fetchLatestIssues
        (fun k => if k < 2 then .transportError k else .response 200 (some []))
        maxRetries).sleeps * retryDelay = 2 * retryDelay) ∧
    (fetchLatestIssues
        (fun k => if k < 2 then .response 500 none else .response 200 (some []))
        maxRetries = ⟨.ok [], 2, 3⟩) ∧
    (fetchLatestIssues (fun _ => .response 500 none) maxRetries
        = ⟨.error (.apiStatus 500), 3, 4⟩) := by
  refine ⟨?_, ?_, ?_, ?_, ?_, ?_⟩
  · intro outcomes maxR
    have := fetchLoop_attempts_le outcomes maxR (maxR + 1) 0 0 0
    simpa [fetchLatestIssues] using this
  · intro c maxR
    have := fetchLoop_all_transport c maxR (maxR + 1) 0 0 0 (by omega) (by omega)
    simpa [fetchLatestIssues] using this
  · decide
  · decide
  · decide
  · decide

/-- The raw notification message `fmt.Sprintf("#%d: %s", issue.Number,
issue.Title)` (main.go line 177), as a list of code units. -/
def rawMessage (i : Issue) : List Char :=
  ('#' :: (toString i.number).toList) ++ (':' :: ' ' :: i.title)

/-- The message actually dispatched by `sendNotification` (main.go lines
177-180): the raw message, truncated when it exceeds
`maxNotificationLength` by keeping the first `maxNotificationLength - 3`
code units and appending the three-dot ellipsis marker. -/
def sendNotificationMessage (i : Issue) : List Char :=
  let message := rawMessage i
  if message.length > maxNotificationLength then
    message.take (maxNotificationLength - 3) ++ ['.', '.', '.']
  else message

/-- Claim C6: the dispatched message is `"#<number>: <title>"`; when that
exceeds `maxNotificationLength = 100` it is truncated to length exactly 100
ending in the ellipsis marker, and otherwise it is passed unchanged. -/
theorem c6_truncation (i : Issue) :
    ((rawMessage i).length > maxNotificationLength →
      (sendNotificationMessage i).length = maxNotificationLength ∧
      ['.', '.', '.'] <:+ sendNotificationMessage i) ∧
    ((rawMessage i).length ≤ maxNotificationLength →
      sendNotificationMessage i = rawMessage i) := by
  constructor
  · intro h
    constructor
    · simp only [sendNotificationMessage, if_pos h, List.length_append,
        List.length_take, List.length_cons, List.length_nil]
      simp only [maxNotificationLength] at h ⊢
      omega
    · simp only [sendNotificationMessage, if_pos h]
      exact List.suffix_append _ _
  · intro h
    simp only [sendNotificationMessage]
    rw [if_neg (by omega)]

/-- A concrete issue whose title makes the raw message 124 code units long. -/
def longIssue : Issue :=
  { id := 1, number := 1, title := List.replicate 120 'a', htmlURL := [],
    state := [], pullRequest := none }

set_option maxRecDepth 8192 in
/-- Witness for C6: the 124-unit message of `longIssue` is dispatched with
length exactly 100, ending in the ellipsis marker. -/
theorem c6_truncation_witness :
    (rawMessage longIssue).length > maxNotificationLength ∧
    (sendNotificationMessage longIssue).length = maxNotificationLength ∧
    ['.', '.', '.'] <:+ sendNotificationMessage longIssue :=
  ⟨by decide, (c6_truncation longIssue).1 (by decide)⟩

/-- The post-decode filter of `Repository.FetchLatestIssues`
(internal/repository/repo.go lines 70-79): walk the decoded entries in order
and keep exactly those whose `pull_request` field is nil. -/
def filterPullRequests : List Issue → List Issue
  | [] => []
  | i :: rest =>
    if i.pullRequest = none then i :: filterPullRequests rest
    else filterPullRequests rest

/-- Claim C7: the filtered fetch result never contains an entry whose
pull-request field is non-null, it is an order-preserving subsequence of the
decoded batch, and every non-pull-request entry of the batch is kept. -/
theorem c7_pr_exclusion (issues : List Issue) :
    (∀ i ∈ filterPullRequests issues, i.pullRequest = none) ∧
    List.Sublist (filterPullRequests issues) issues ∧
    (∀ i ∈ issues, i.pullRequest = none → i ∈ filterPullRequests issues) := by
  induction issues with
  | nil => simp [filterPullRequests]
  | cons j rest ih =>
    by_cases hj : j.pullRequest = none
    · simp only [filterPullRequests, if_pos hj]
      refine ⟨?_, ?_, ?_⟩
      · intro i hi
        rcases List.mem_cons.mp hi with heq | hmem
        · subst heq; exact hj
        · exact ih.1 i hmem
      · exact List.Sublist.cons₂ j ih.2.1
      · intro i hi hnone
        rcases List.mem_cons.mp hi with heq | hmem
        · subst heq; exact List.mem_cons_self _ _
        · exact List.mem_cons_of_mem _ (ih.2.2 i hmem hnone)
    · simp only [filterPullRequests, if_neg hj]
      refine ⟨ih.1, List.Sublist.cons j ih.2.1, ?_⟩
      intro i hi hnone
      rcases List.mem_cons.mp hi with heq | hmem
      · subst heq; exact absurd hnone hj
      · exact ih.2.2 i hmem hnone

/-- A concrete pull-request entry. -/
def prIssue : Issue :=
  { id := 2, number := 2, title := [], htmlURL := [], state := [],
    pullRequest := some [] }

/-- Witness for C7: in the batch `[prIssue, mkIssue 3]` the plain issue is
kept and its pull-request field is nil by the theorem. -/
theorem c7_pr_exclusion_witness :
    mkIssue 3 ∈ filterPullRequests [prIssue, mkIssue 3] ∧
    (mkIssue 3).pullRequest = none :=
  ⟨by decide,
   (c7_pr_exclusion [prIssue, mkIssue 3]).1 (mkIssue 3) (by decide)⟩

/-- Observable times of one `sendNotification` call (main.go lines 167-211):
the instant the payload is handed to the platform sink, and the value held by
`state.lastNotifyTime` after the call returns. -/
structure NotifyTiming where
  sinkCallTime : Int
  lastNotifyTimeAfter : Int
deriving Repr, DecidableEq

/-- How the platform switch of `sendNotification` ends. On darwin,
`cmd.Run()` can fail with an `*exec.ExitError`, and the function then returns
at main.go line 193, before the `s.lastNotifyTime = time.Now()` write at line
209; every other ending — success, or any other failure on any platform —
falls through to that write. -/
inductive SinkOutcome where
  | success
  | darwinExitError
  | otherError
deriving Repr, DecidableEq

/-- Timing of the write-reaching paths of `sendNotification` over an integer
nanosecond clock. On entry at time `now`: if `now - lastNotifyTime <
notifyDelay` the call executes `time.Sleep(notifyDelay)` — the full delay —
and only then hands off to the sink; the sink call takes `sinkDuration`,
after which `lastNotifyTime` is set to the current clock value. The darwin
`*exec.ExitError` early return, which skips that write, is modelled by
`sendNotificationRun` below. -/
def sendNotificationTiming (lastNotifyTime now sinkDuration : Int) :
    NotifyTiming :=
  let callTime :=
    if now - lastNotifyTime < notifyDelay then now + notifyDelay else now
  ⟨callTime, callTime + sinkDuration⟩

/-- Full timing of `sendNotification` (main.go lines 167-211), including the
darwin early return: the guard-and-sleep and the handoff instant are as in
`sendNotificationTiming`, but when the sink call ends in a darwin
`*exec.ExitError` the function returns before the `s.lastNotifyTime`
write, so the stored timestamp keeps its previous value. -/
def sendNotificationRun (lastNotifyTime now sinkDuration : Int)
    (outcome : SinkOutcome) : NotifyTiming :=
  let callTime :=
    if now - lastNotifyTime < notifyDelay then now + notifyDelay else now
  match outcome with
  | .darwinExitError => ⟨callTime, lastNotifyTime⟩
  | .success => ⟨callTime, callTime + sinkDuration⟩
  | .otherError => ⟨callTime, callTime + sinkDuration⟩

/-- The handoff instant does not depend on how the sink call ends. -/
theorem sendNotificationRun_sinkCallTime
    (lastNotifyTime now sinkDuration : Int) (outcome : SinkOutcome) :
    (sendNotificationRun lastNotifyTime now sinkDuration outcome).sinkCallTime
      = (sendNotificationTiming lastNotifyTime now sinkDuration).sinkCallTime := by
  cases outcome <;> rfl

/-- Counterexample for C8 as stated: with a stale `lastNotifyTime = 0`, a
dispatch at 10 s whose darwin sink fails with an `*exec.ExitError` returns
early and leaves `lastNotifyTime` at 0; a second dispatch requested 100 ms
later (less than `notifyDelay` after the first) then sees a huge elapsed
time, skips the sleep, and hands off 100 ms after the first handoff — closer
than `notifyDelay`. -/
theorem c8_counterexample :
    ((10100000000 : Int) - 10000000000 < notifyDelay) ∧
    (sendNotificationRun 0 10000000000 0 .darwinExitError).sinkCallTime
      = 10000000000 ∧
    (sendNotificationRun 0 10000000000 0 .darwinExitError).lastNotifyTimeAfter
      = 0 ∧
    (sendNotificationRun
        (sendNotificationRun 0 10000000000 0 .darwinExitError).lastNotifyTimeAfter
        10100000000 0 .success).sinkCallTime = 10100000000 ∧
    ¬((sendNotificationRun
        (sendNotificationRun 0 10000000000 0 .darwinExitError).lastNotifyTimeAfter
        10100000000 0 .success).sinkCallTime
      - (sendNotificationRun 0 10000000000 0 .darwinExitError).sinkCallTime
      ≥ notifyDelay) := by
  refine ⟨by decide, by decide, by decide, by decide, by decide⟩

/-- Claim C8 amended: consecutive sink handoffs are at least `notifyDelay`
apart whenever the earlier dispatch reaches the `lastNotifyTime` write (it
does not take the darwin `*exec.ExitError` early return). With the
dispatches serialized by the mutex (the second call reads the clock no
earlier than the first call finished and wrote `lastNotifyTime`), and the
sink taking non-negative time, a second dispatch requested less than
`notifyDelay` after the first one finished hands off at least `notifyDelay`
after the first handoff, whatever the second sink call's own ending. -/
theorem c8_flood_prevention (lastNotifyTime now1 d1 now2 d2 : Int)
    (o1 o2 : SinkOutcome) (ho1 : o1 ≠ SinkOutcome.darwinExitError)
    (hd1 : 0 ≤ d1)
    (hserial :
      (sendNotificationRun lastNotifyTime now1 d1 o1).lastNotifyTimeAfter
        ≤ now2)
    (hfast :
      now2 - (sendNotificationRun lastNotifyTime now1 d1 o1).lastNotifyTimeAfter
        < notifyDelay) :
    (sendNotificationRun
        (sendNotificationRun lastNotifyTime now1 d1 o1).lastNotifyTimeAfter
        now2 d2 o2).sinkCallTime
      - (sendNotificationRun lastNotifyTime now1 d1 o1).sinkCallTime
      ≥ notifyDelay := by
  cases o1 with
  | darwinExitError => exact absurd rfl ho1
  | success =>
    cases o2 <;>
      (simp only [sendNotificationRun] at hserial hfast ⊢
       rw [if_pos hfast]
       by_cases h1 : now1 - lastNotifyTime < notifyDelay
       · rw [if_pos h1] at hserial ⊢
         omega
       · rw [if_neg h1] at hserial ⊢
         omega)
  | otherError =>
    cases o2 <;>
      (simp only [sendNotificationRun] at hserial hfast ⊢
       rw [if_pos hfast]
       by_cases h1 : now1 - lastNotifyTime < notifyDelay
       · rw [if_pos h1] at hserial ⊢
         omega
       · rw [if_neg h1] at hserial ⊢
         omega)

/-- Witness for the amended C8: first dispatch at 1 s succeeds (no wait,
instantaneous sink) and writes `lastNotifyTime`; the second dispatch is
requested 100 ms later and hands off 600 ms after the first, at least
`notifyDelay` apart. -/
theorem c8_flood_prevention_witness :
    (SinkOutcome.success ≠ SinkOutcome.darwinExitError) ∧
    (0 : Int) ≤ 0 ∧
    (sendNotificationRun 0 1000000000 0 .success).lastNotifyTimeAfter
      ≤ 1100000000 ∧
    (1100000000 : Int)
        - (sendNotificationRun 0 1000000000 0 .success).lastNotifyTimeAfter
      < notifyDelay ∧
    (sendNotificationRun
        (sendNotificationRun 0 1000000000 0 .success).lastNotifyTimeAfter
        1100000000 0 .success).sinkCallTime
      - (sendNotificationRun 0 1000000000 0 .success).sinkCallTime
      ≥ notifyDelay :=
  ⟨by decide, by decide, by decide, by decide,
   c8_flood_prevention 0 1000000000 0 1100000000 0 .success .success
     (by decide) (by decide) (by decide) (by decide)⟩

/-- Counterexample for C9 as stated: with `lastNotifyTime = 0` and a dispatch
requested at 200 ms (elapsed 200 ms, remaining delay 300 ms), the code does
not hand off after the remaining delay at 500 ms — it sleeps the full
`notifyDelay` and hands off at 700 ms. -/
theorem c9_counterexample :
    (200000000 : Int) - 0 < notifyDelay ∧
    (sendNotificationTiming 0 200000000 0).sinkCallTime
        ≠ 200000000 + (notifyDelay - (200000000 - 0)) ∧
    (sendNotificationTiming 0 200000000 0).sinkCallTime = 700000000 := by
  refine ⟨by decide, by decide, by decide⟩

/-- Claim C9 amended: whenever dispatch is invoked with elapsed time since
`state.lastNotifyTime` shorter than `notifyDelay`, the dispatcher waits
exactly `notifyDelay` (the full configured delay, not merely the remaining
difference) before handing the payload to the sink. -/
theorem c9_full_delay_wait (lastNotifyTime now sinkDuration : Int)
    (h : now - lastNotifyTime < notifyDelay) :
    (sendNotificationTiming lastNotifyTime now sinkDuration).sinkCallTime
      = now + notifyDelay := by
  simp only [sendNotificationTiming]
  rw [if_pos h]

/-- Witness for the amended C9: elapsed 200 ms yields a handoff exactly
`notifyDelay` after the request. -/
theorem c9_full_delay_wait_witness :
    (200000000 : Int) - 0 < notifyDelay ∧
    (sendNotificationTiming 0 200000000 0).sinkCallTime
      = 200000000 + notifyDelay :=
  ⟨by decide, c9_full_delay_wait 0 200000000 0 (by decide)⟩
